import Mathlib

/-!
Shallow embedding of the SUPRA dark-field thresholding stage
(`src/SupraLib/Processing/DarkFilterThresholdingCuda.cu`): the per-voxel
thresholding kernel, the clamping narrowing cast, the residency handling of
the stage driver `DarkFilterThresholdingCuda::process`, and the index
computations of the tiled buffer accessors.
-/

namespace Supra

/-- The kernel's working type. In the source, `DarkFilterThresholdingCuda::WorkType`
is declared in the stage's header (outside the visible sources); the spec describes
it as "a single fixed wide numeric type (floating point, wide enough to hold the
dynamic range of every supported sample type without precision loss)". It is
modelled as exact rationals; the widening of an input sample to WorkType and the
narrowing of the caller's double-precision threshold to WorkType are both modelled
as the identity, per the spec's losslessness statements. -/
abbrev WorkType := ℚ

/-- 3D extent / coordinate triple, mirroring `vec3s`. -/
structure Vec3s where
  x : ℕ
  y : ℕ
  z : ℕ
deriving DecidableEq, Repr

/-- Modelled from the spec: the supported sample types — "8-bit unsigned integer,
16-bit signed integer, 32-bit floating point" (the nine explicit template
instantiations at the bottom of DarkFilterThresholdingCuda.cu range over exactly
these three types for input and output). -/
inductive SampleType where
  | uint8
  | int16
  | float32
deriving DecidableEq, Repr

/-- Smallest representable value of each sample type (for 32-bit float, the most
negative finite value, -(2^128 - 2^104)). -/
def SampleType.minVal : SampleType → ℚ
  | .uint8 => 0
  | .int16 => -32768
  | .float32 => -(2 ^ 128 - 2 ^ 104)

/-- Largest representable value of each sample type (for 32-bit float, the largest
finite value, 2^128 - 2^104). -/
def SampleType.maxVal : SampleType → ℚ
  | .uint8 => 255
  | .int16 => 32767
  | .float32 => 2 ^ 128 - 2 ^ 104

/-- Modelled from the spec: `clampCast<OutputType>` (a helper from the utilities
headers, not among the visible sources) — "a pure function mapping a Work Type
value to an output sample type, clamping to the representable range of the output
type rather than wrapping or producing undefined results on overflow". -/
def clampCast (t : SampleType) (v : WorkType) : WorkType :=
  max t.minVal (min t.maxVal v)

/-- The thresholding branch of `processKernel` (DarkFilterThresholdingCuda.cu:54-61):
if `abs(inPixel) >= threshold` the widened pixel value is kept, otherwise it is
zeroed (in WorkType). -/
def thresholdValue (threshold : WorkType) (inPixel : WorkType) : WorkType :=
  if |inPixel| ≥ threshold then inPixel else (0 : WorkType)

/-- Per-voxel result of `processKernel` (DarkFilterThresholdingCuda.cu:51-66):
widen the input sample (identity in the model), threshold it, then narrow to the
output sample type with the clamping cast. -/
def processVoxel (outType : SampleType) (threshold : WorkType) (inPixel : WorkType) : WorkType :=
  clampCast outType (thresholdValue threshold inPixel)

/-- Linear offset of the global coordinate (x, y, z) in the flat backing buffer,
as computed by the direct accessor `Buffer3` (spec 4.2:
`x + y*width + z*width*height`). -/
def idx3 (size : Vec3s) (x y z : ℕ) : ℕ :=
  x + y * size.x + z * (size.x * size.y)

/-- Modelled from the spec: the residency tag of a typed memory container
(host-only, accelerator-only, or both), mirroring `LocationHost` / `LocationGpu` /
`LocationBoth`. -/
inductive ContainerLocation where
  | LocationHost
  | LocationGpu
  | LocationBoth
deriving DecidableEq, Repr

/-- Modelled from the spec: the typed memory container (`Container<T>` of the
utilities, not among the visible sources) — "an opaque, reference-counted buffer of
a scalar element type that knows whether it currently resides in host memory,
accelerator memory, or both, and exposes a raw pointer plus an associated execution
queue (stream)". The logical contents are modelled as the list of the samples
widened to WorkType (lossless per the spec); the execution queue is modelled as a
natural-number identifier. -/
structure Container where
  location : ContainerLocation
  stream : ℕ
  data : List WorkType
deriving DecidableEq, Repr

/-- Modelled from the spec: `Container::isGPU` — the residency tag is
accelerator-only. -/
def Container.isGPU (c : Container) : Bool :=
  match c.location with
  | .LocationGpu => true
  | _ => false

/-- Modelled from the spec: `Container::isBoth` — the container is dual-resident. -/
def Container.isBoth (c : Container) : Bool :=
  match c.location with
  | .LocationBoth => true
  | _ => false

/-- Element count of a container. -/
def Container.elementCount (c : Container) : ℕ :=
  c.data.length

/-- Modelled from the spec: copy-constructing a container into accelerator
residency (`make_shared<Container<InputType>>(LocationGpu, *inImageData)`,
DarkFilterThresholdingCuda.cu:86) — "creates a new container with the same logical
content physically placed in the target residency ... MUST preserve element values
exactly". The associated execution queue is carried over. -/
def gpuCopy (c : Container) : Container :=
  { location := .LocationGpu, stream := c.stream, data := c.data }

/-- Residency normalization of the stage driver
(DarkFilterThresholdingCuda.cu:83-87): if the input container is neither
accelerator-resident nor dual-resident, migrate it to the accelerator; otherwise
use it as-is. -/
def normalizeResidency (c : Container) : Container :=
  if !c.isGPU && !c.isBoth then gpuCopy c else c

/-- The element a voxel coordinate denotes inside a container, read through the
linear offset of the accessors (out-of-range offsets default to 0; all uses are
guarded by bounds hypotheses). -/
def Container.at3 (c : Container) (size : Vec3s) (x y z : ℕ) : WorkType :=
  c.data.getD (idx3 size x y z) 0

/-- The stage driver `DarkFilterThresholdingCuda::process`
(DarkFilterThresholdingCuda.cu:71-110): normalize the input's residency, allocate
an accelerator-resident output container of `width*height*depth` elements on the
(possibly migrated) input's stream, and run the kernel voxel-wise. The cached
accessor serves, for each in-bounds global coordinate, exactly the backing
buffer's value at that coordinate's linear offset (modelled from the spec, 4.2);
the kernel's grid covers every in-bounds voxel exactly once, so the output data is
the voxel-wise image of the input under `processVoxel`. -/
def process (outType : SampleType) (imageData : Container) (size : Vec3s)
    (threshold : ℚ) : Container :=
  let inImageData := normalizeResidency imageData
  { location := .LocationGpu
    stream := inImageData.stream
    data := (List.range (size.x * size.y * size.z)).map
      (fun i => processVoxel outType threshold (inImageData.data.getD i 0)) }

/-- One kernel thread's action (DarkFilterThresholdingCuda.cu:45-67): a thread at
global coordinate (x, y, z) writes the processed voxel at the coordinate's linear
offset when the coordinate is inside the volume bounds, and performs no read and
no write otherwise. -/
def threadWrite (outType : SampleType) (size : Vec3s) (threshold : ℚ)
    (input : List WorkType) (x y z : ℕ) : Option (ℕ × WorkType) :=
  if x < size.x ∧ y < size.y ∧ z < size.z then
    some (idx3 size x y z, processVoxel outType threshold (input.getD (idx3 size x y z) 0))
  else
    none

/-- Modelled from the spec: the linear offsets into the backing buffer touched by
the cooperative copy of the cached accessor `CachedBuffer3` (defined in the
utilities headers, not among the visible sources) — the copy is clipped to "the
intersection of tile footprint and volume extent" (spec 4.2), so a tile cell whose
global coordinate falls outside the volume contributes no access. -/
def cachedCopyIndices (size tileExtent tileOrigin : Vec3s) : List ℕ :=
  (List.range tileExtent.x).flatMap fun i =>
    (List.range tileExtent.y).flatMap fun j =>
      (List.range tileExtent.z).filterMap fun k =>
        if tileOrigin.x + i < size.x ∧ tileOrigin.y + j < size.y ∧
            tileOrigin.z + k < size.z then
          some (idx3 size (tileOrigin.x + i) (tileOrigin.y + j) (tileOrigin.z + k))
        else
          none

/-- Any in-bounds coordinate's linear offset is inside the flat buffer. -/
lemma idx3_lt (size : Vec3s) (x y z : ℕ) (hx : x < size.x) (hy : y < size.y)
    (hz : z < size.z) : idx3 size x y z < size.x * size.y * size.z := by
  unfold idx3
  calc x + y * size.x + z * (size.x * size.y)
      < size.x + y * size.x + z * (size.x * size.y) := by omega
    _ = (y + 1) * size.x + z * (size.x * size.y) := by ring
    _ ≤ size.y * size.x + z * (size.x * size.y) :=
        Nat.add_le_add_right (Nat.mul_le_mul_right _ (by omega)) _
    _ = (z + 1) * (size.x * size.y) := by ring
    _ ≤ size.z * (size.x * size.y) := Nat.mul_le_mul_right _ (by omega)
    _ = size.x * size.y * size.z := by ring

/-- Residency normalization never changes the logical contents. -/
lemma normalizeResidency_data (c : Container) :
    (normalizeResidency c).data = c.data := by
  unfold normalizeResidency gpuCopy
  split <;> rfl

/-- Residency normalization never changes the associated stream. -/
lemma normalizeResidency_stream (c : Container) :
    (normalizeResidency c).stream = c.stream := by
  unfold normalizeResidency gpuCopy
  split <;> rfl

/-- Reading the i-th element of a range-map list below the range bound. -/
lemma getD_map_range (n i : ℕ) (f : ℕ → WorkType) (h : i < n) :
    ((List.range n).map f).getD i 0 = f i := by
  rw [List.getD_eq_getElem?_getD, List.getElem?_map, List.getElem?_range h]
  rfl

/-- The clamping cast maps zero to zero for every supported output type. -/
lemma clampCast_zero (t : SampleType) : clampCast t 0 = 0 := by
  cases t <;> norm_num [clampCast, SampleType.minVal, SampleType.maxVal]

/-- The representable range of every supported sample type is nonempty. -/
lemma minVal_le_maxVal (t : SampleType) : t.minVal ≤ t.maxVal := by
  cases t <;> norm_num [SampleType.minVal, SampleType.maxVal]

/-- The clamping cast is idempotent. -/
lemma clampCast_idem (t : SampleType) (v : WorkType) :
    clampCast t (clampCast t v) = clampCast t v := by
  unfold clampCast
  have h1 : t.minVal ≤ max t.minVal (min t.maxVal v) := le_max_left _ _
  have h2 : max t.minVal (min t.maxVal v) ≤ t.maxVal :=
    max_le (minVal_le_maxVal t) (min_le_left _ _)
  rw [min_eq_right h2, max_eq_right h1]

/-- The kernel's output at an in-bounds voxel is the per-voxel function of the
input's value at that voxel. -/
lemma process_at3 (t : SampleType) (c : Container) (size : Vec3s) (thr : ℚ)
    (x y z : ℕ) (hx : x < size.x) (hy : y < size.y) (hz : z < size.z) :
    (process t c size thr).at3 size x y z = processVoxel t thr (c.at3 size x y z) := by
  unfold process Container.at3
  rw [getD_map_range _ _ _ (idx3_lt size x y z hx hy hz), normalizeResidency_data]

/-- The driver's output data is the voxel-wise image of the input data. -/
lemma process_data_eq (t : SampleType) (c : Container) (size : Vec3s) (thr : ℚ) :
    (process t c size thr).data = (List.range (size.x * size.y * size.z)).map
      (fun i => processVoxel t thr (c.data.getD i 0)) := by
  simp [process, normalizeResidency_data]

/-- With threshold zero the per-voxel computation is exactly the clamping cast. -/
lemma processVoxel_zero (t : SampleType) (v : WorkType) :
    processVoxel t 0 v = clampCast t v := by
  unfold processVoxel thresholdValue
  rw [if_pos (abs_nonneg v)]

/-- Two containers agreeing on all fields are equal. -/
lemma Container.eq_of_fields {a b : Container} (h1 : a.location = b.location)
    (h2 : a.stream = b.stream) (h3 : a.data = b.data) : a = b := by
  cases a; cases b; simp_all

/-- C1: at every in-bounds voxel the written output is the clamping cast of the
thresholded widened sample (the sample itself when its magnitude reaches the
threshold, zero otherwise); in particular, a voxel whose input magnitude is
strictly below the threshold is written as exactly zero. -/
theorem darkFilter_voxel_spec (t : SampleType) (c : Container) (size : Vec3s)
    (thr : ℚ) (x y z : ℕ) (hx : x < size.x) (hy : y < size.y) (hz : z < size.z) :
    (process t c size thr).at3 size x y z =
      clampCast t (if |c.at3 size x y z| ≥ thr then c.at3 size x y z else 0) ∧
    (|c.at3 size x y z| < thr → (process t c size thr).at3 size x y z = 0) := by
  constructor
  · rw [process_at3 t c size thr x y z hx hy hz]
    rfl
  · intro hlt
    rw [process_at3 t c size thr x y z hx hy hz]
    unfold processVoxel thresholdValue
    rw [if_neg (not_le.mpr hlt), clampCast_zero]

/-- Witness for C1 at a concrete sub-threshold voxel. -/
theorem darkFilter_voxel_spec_witness :
    (process .uint8 ⟨.LocationHost, 0, [5]⟩ ⟨1, 1, 1⟩ 10).at3 ⟨1, 1, 1⟩ 0 0 0 = 0 :=
  (darkFilter_voxel_spec .uint8 ⟨.LocationHost, 0, [5]⟩ ⟨1, 1, 1⟩ 10 0 0 0
    (by decide) (by decide) (by decide)).2 (by decide)

/-- C2: the magnitude comparison is inclusive — at an in-bounds voxel whose input
magnitude exactly equals the threshold, the voxel is passed through (the written
output is the clamping cast of the input), not zeroed. -/
theorem darkFilter_boundary_equality (t : SampleType) (c : Container) (size : Vec3s)
    (thr : ℚ) (x y z : ℕ) (hx : x < size.x) (hy : y < size.y) (hz : z < size.z)
    (heq : |c.at3 size x y z| = thr) :
    (process t c size thr).at3 size x y z = clampCast t (c.at3 size x y z) := by
  rw [process_at3 t c size thr x y z hx hy hz]
  unfold processVoxel thresholdValue
  rw [if_pos (le_of_eq heq.symm)]

/-- Witness for C2 at input value 10 with threshold 10. -/
theorem darkFilter_boundary_equality_witness :
    (process .uint8 ⟨.LocationHost, 0, [10]⟩ ⟨1, 1, 1⟩ 10).at3 ⟨1, 1, 1⟩ 0 0 0 =
      clampCast .uint8 ((⟨.LocationHost, 0, [10]⟩ : Container).at3 ⟨1, 1, 1⟩ 0 0 0) :=
  darkFilter_boundary_equality .uint8 ⟨.LocationHost, 0, [10]⟩ ⟨1, 1, 1⟩ 10 0 0 0
    (by decide) (by decide) (by decide) (by decide)

/-- C3: the narrowing cast saturates — a passed-through value strictly above the
output type's largest representable value is written as that largest value, never
wrapped. -/
theorem clampCast_saturates_above (t : SampleType) (thr v : ℚ)
    (hpass : |v| ≥ thr) (hover : t.maxVal < v) :
    processVoxel t thr v = t.maxVal := by
  unfold processVoxel thresholdValue clampCast
  rw [if_pos hpass, min_eq_left (le_of_lt hover), max_eq_right (minVal_le_maxVal t)]

/-- Witness for C3: value 1000 with 8-bit unsigned output and threshold 0
saturates to 255. -/
theorem clampCast_saturates_above_witness :
    processVoxel .uint8 0 1000 = 255 :=
  clampCast_saturates_above .uint8 0 1000 (by decide) (by decide)

/-- C4 counterexample: with geometry (1,1,1), input value -300, threshold 100 and
8-bit unsigned output, the written output is not 255 as the claim states. -/
theorem concreteScenario_not_maximum :
    ¬ (process .uint8 ⟨.LocationHost, 0, [-300]⟩ ⟨1, 1, 1⟩ 100).at3 ⟨1, 1, 1⟩ 0 0 0
      = 255 := by
  decide

/-- C4 amended: with geometry (1,1,1), input value -300, threshold 100 and 8-bit
unsigned output, the sample is passed through by the threshold test
(|-300| = 300 ≥ 100, so the thresholding keeps -300), and the saturating cast then
clamps the negative value to the unsigned range's minimum, writing output value 0. -/
theorem concreteScenario_passes_and_clamps_low :
    thresholdValue 100 (-300) = -300 ∧
    (process .uint8 ⟨.LocationHost, 0, [-300]⟩ ⟨1, 1, 1⟩ 100).at3 ⟨1, 1, 1⟩ 0 0 0
      = 0 := by
  constructor <;> decide

/-- C5: the driver migrates the input container if and only if it is purely
host-resident — a container that is already accelerator-resident or dual-resident
is used unchanged (no copy), while a host-resident container is replaced by a
fresh accelerator-resident container with identical contents and stream (the
original container itself is left untouched). -/
theorem residency_normalization_spec (c : Container) :
    (normalizeResidency c = c ↔ (c.isGPU = true ∨ c.isBoth = true)) ∧
    (c.location = .LocationHost →
      (normalizeResidency c).location = .LocationGpu ∧
      (normalizeResidency c).data = c.data ∧
      (normalizeResidency c).stream = c.stream) := by
  rcases c with ⟨loc, s, d⟩
  cases loc <;>
    simp [normalizeResidency, gpuCopy, Container.isGPU, Container.isBoth]

/-- Witness for C5: a host container is migrated to the accelerator, an
accelerator container is used as-is. -/
theorem residency_normalization_spec_witness :
    (normalizeResidency ⟨.LocationHost, 3, [7]⟩).location = .LocationGpu ∧
    normalizeResidency ⟨.LocationGpu, 3, [7]⟩ = ⟨.LocationGpu, 3, [7]⟩ :=
  ⟨((residency_normalization_spec ⟨.LocationHost, 3, [7]⟩).2 rfl).1,
   (residency_normalization_spec ⟨.LocationGpu, 3, [7]⟩).1.mpr (Or.inl rfl)⟩

/-- C6: the output container allocated by the driver has element count exactly
width*height*depth (hence equal to the input's element count whenever the input is
correctly sized) and is bound to the same stream as the possibly-migrated input
container. -/
theorem process_shape_and_stream (t : SampleType) (c : Container) (size : Vec3s)
    (thr : ℚ) :
    (process t c size thr).elementCount = size.x * size.y * size.z ∧
    (process t c size thr).stream = (normalizeResidency c).stream ∧
    (c.elementCount = size.x * size.y * size.z →
      (process t c size thr).elementCount = c.elementCount) := by
  refine ⟨?_, rfl, ?_⟩
  · simp [process, Container.elementCount]
  · intro h
    have hn : (process t c size thr).elementCount = size.x * size.y * size.z := by
      simp [process, Container.elementCount]
    rw [hn, h]

/-- Witness for C6 at a correctly sized concrete input. -/
theorem process_shape_and_stream_witness :
    (process .uint8 ⟨.LocationHost, 0, [5]⟩ ⟨1, 1, 1⟩ 10).elementCount =
      (⟨.LocationHost, 0, [5]⟩ : Container).elementCount :=
  (process_shape_and_stream .uint8 ⟨.LocationHost, 0, [5]⟩ ⟨1, 1, 1⟩ 10).2.2
    (by decide)

/-- C7: residency transparency — processing a host-resident container and an
accelerator-resident container holding identical logical contents, with the same
geometry and threshold, yields outputs with identical contents. -/
theorem residency_transparency (t : SampleType) (size : Vec3s) (thr : ℚ)
    (c1 c2 : Container) (hdata : c1.data = c2.data)
    (_h1 : c1.location = .LocationHost) (_h2 : c2.location = .LocationGpu) :
    (process t c1 size thr).data = (process t c2 size thr).data := by
  rw [process_data_eq, process_data_eq, hdata]

/-- Witness for C7 on a concrete two-voxel volume. -/
theorem residency_transparency_witness :
    (process .uint8 ⟨.LocationHost, 0, [5, 20]⟩ ⟨2, 1, 1⟩ 10).data =
      (process .uint8 ⟨.LocationGpu, 1, [5, 20]⟩ ⟨2, 1, 1⟩ 10).data :=
  residency_transparency .uint8 ⟨2, 1, 1⟩ 10 ⟨.LocationHost, 0, [5, 20]⟩
    ⟨.LocationGpu, 1, [5, 20]⟩ rfl rfl rfl

/-- C8: pass-through is the clamping cast (any value whose magnitude reaches the
threshold is written as its clamping cast), and running the stage twice with
threshold 0 equals running it once — a no-op modulo the type narrowing of the
first run. -/
theorem passthrough_idempotence (t : SampleType) (c : Container) (size : Vec3s) :
    (∀ thr v : ℚ, |v| ≥ thr → processVoxel t thr v = clampCast t v) ∧
    process t (process t c size 0) size 0 = process t c size 0 := by
  have hvox : ∀ v : ℚ, processVoxel t 0 (processVoxel t 0 v) = processVoxel t 0 v := by
    intro v
    rw [processVoxel_zero, processVoxel_zero, clampCast_idem]
  constructor
  · intro thr v h
    unfold processVoxel thresholdValue
    rw [if_pos h]
  · apply Container.eq_of_fields
    · rfl
    · show (normalizeResidency (process t c size 0)).stream = _
      rfl
    · rw [process_data_eq, process_data_eq]
      refine List.map_congr_left fun i hi => ?_
      rw [List.mem_range] at hi
      rw [getD_map_range _ _ _ hi]
      exact hvox _

/-- Witness for C8: a concrete pass-through and a concrete double run. -/
theorem passthrough_idempotence_witness :
    processVoxel .uint8 3 5 = clampCast .uint8 5 ∧
    process .uint8 (process .uint8 ⟨.LocationHost, 0, [5, 300]⟩ ⟨2, 1, 1⟩ 0) ⟨2, 1, 1⟩ 0 =
      process .uint8 ⟨.LocationHost, 0, [5, 300]⟩ ⟨2, 1, 1⟩ 0 :=
  ⟨(passthrough_idempotence .uint8 ⟨.LocationHost, 0, [5, 300]⟩ ⟨2, 1, 1⟩).1 3 5
      (by decide),
   (passthrough_idempotence .uint8 ⟨.LocationHost, 0, [5, 300]⟩ ⟨2, 1, 1⟩).2⟩

/-- C9: every buffer access is bounds-guarded — a thread whose global coordinate
lies outside the volume performs no read and no write; any write a thread does
perform lands strictly inside the flat buffer; and every offset touched by the
cached accessor's cooperative copy (clipped to the intersection of tile footprint
and volume extent) is strictly inside the flat buffer. -/
theorem bounds_guard (t : SampleType) (size : Vec3s) (thr : ℚ)
    (input : List WorkType) (tileExtent tileOrigin : Vec3s) (x y z : ℕ) :
    (¬(x < size.x ∧ y < size.y ∧ z < size.z) →
      threadWrite t size thr input x y z = none) ∧
    (∀ p : ℕ × WorkType, threadWrite t size thr input x y z = some p →
      p.1 < size.x * size.y * size.z) ∧
    (∀ i ∈ cachedCopyIndices size tileExtent tileOrigin,
      i < size.x * size.y * size.z) := by
  refine ⟨?_, ?_, ?_⟩
  · intro h
    unfold threadWrite
    rw [if_neg h]
  · intro p hp
    unfold threadWrite at hp
    by_cases h : x < size.x ∧ y < size.y ∧ z < size.z
    · rw [if_pos h] at hp
      obtain ⟨rfl⟩ := Option.some.inj hp
      exact idx3_lt size x y z h.1 h.2.1 h.2.2
    · rw [if_neg h] at hp
      exact absurd hp (by simp)
  · intro i hi
    unfold cachedCopyIndices at hi
    simp only [List.mem_flatMap, List.mem_filterMap, List.mem_range] at hi
    obtain ⟨a, ha, b, hb, k, hk, hcond⟩ := hi
    by_cases hin : tileOrigin.x + a < size.x ∧ tileOrigin.y + b < size.y ∧
        tileOrigin.z + k < size.z
    · rw [if_pos hin] at hcond
      obtain ⟨rfl⟩ := Option.some.inj hcond
      exact idx3_lt size _ _ _ hin.1 hin.2.1 hin.2.2
    · rw [if_neg hin] at hcond
      exact absurd hcond (by simp)

/-- Witness for C9: an out-of-bounds thread writes nothing, an in-bounds write
stays inside the buffer, and the clipped copy of a 32x4x1 tile over a 2x1x1
volume only touches in-bounds offsets. -/
theorem bounds_guard_witness :
    threadWrite .uint8 ⟨2, 1, 1⟩ 10 [5, 20] 5 0 0 = none ∧
    (idx3 ⟨2, 1, 1⟩ 1 0 0, processVoxel .uint8 10 ([5, 20].getD (idx3 ⟨2, 1, 1⟩ 1 0 0) 0)).1
      < 2 * 1 * 1 ∧
    (1 : ℕ) < 2 * 1 * 1 :=
  ⟨(bounds_guard .uint8 ⟨2, 1, 1⟩ 10 [5, 20] ⟨32, 4, 1⟩ ⟨0, 0, 0⟩ 5 0 0).1
      (by decide),
   (bounds_guard .uint8 ⟨2, 1, 1⟩ 10 [5, 20] ⟨32, 4, 1⟩ ⟨0, 0, 0⟩ 1 0 0).2.1 _ rfl,
   (bounds_guard .uint8 ⟨2, 1, 1⟩ 10 [5, 20] ⟨32, 4, 1⟩ ⟨0, 0, 0⟩ 1 0 0).2.2 1
      (by decide)⟩

/-- C10: for any threshold at most zero, no voxel is zeroed — every per-voxel
result is exactly the clamping cast of the input sample, and the whole stage
degenerates to the element-wise clamping cast of the input volume. -/
theorem nonpositive_threshold_passthrough (t : SampleType) (thr : ℚ)
    (h : thr ≤ 0) :
    (∀ v : ℚ, processVoxel t thr v = clampCast t v) ∧
    (∀ (c : Container) (size : Vec3s), (process t c size thr).data =
      (List.range (size.x * size.y * size.z)).map
        (fun i => clampCast t (c.data.getD i 0))) := by
  have hv : ∀ v : ℚ, processVoxel t thr v = clampCast t v := by
    intro v
    unfold processVoxel thresholdValue
    rw [if_pos (le_trans h (abs_nonneg v))]
  refine ⟨hv, fun c size => ?_⟩
  rw [process_data_eq]
  exact List.map_congr_left fun i _ => by rw [hv]

/-- Witness for C10 with a negative threshold. -/
theorem nonpositive_threshold_passthrough_witness :
    processVoxel .int16 (-5) 3 = clampCast .int16 3 :=
  (nonpositive_threshold_passthrough .int16 (-5) (by norm_num)).1 3

end Supra
